import Mathlib

/-!
Shallow embedding of the data-config validation layer of fms-hf-tuning
(`tuning/data/data_config.py`) together with the data-handler predicate
`skip_samples_with_large_columns` (whose implementation file is not in the
source tree; it is modelled from the spec, see its doc comment).

Modelling conventions:
* A raw deserialized YAML/JSON document is a `Value` (nested mappings,
  lists, scalars).  Mappings are association lists with string keys and
  unique-key lookup discipline (first match), matching Python dicts
  produced by a YAML/JSON loader.
* Python numbers: `int` is `Int`, `float` is `Rat` (the range checks the
  code performs on `[0.0, 1.0]` are order comparisons, which `Rat` models
  exactly).  A Python `bool` is a subclass of `int`, so `isinstance(x, int)`
  and `isinstance(x, (float, int))` accept booleans; the embedding keeps
  that behavior explicitly.
* `assert` failures, `raise ValueError`, `TypeError` from bad calls, and
  the `UnboundLocalError` reachable in `load_and_validate_data_config` are
  the constructors of `ConfigError`; a validator returns
  `Except ConfigError α`.
* `logging.warning` calls do not affect results and are not modelled.
* The filesystem questions asked by `_validate_dataset_config`
  (`os.path.exists`, `os.path.abspath`) are a `FileSystem` parameter;
  `os.path.isabs` is the concrete posix test (leading slash).
* `base64.b64decode` (non-validating mode, as called by the source) and
  strict UTF-8 decoding of the resulting bytes are implemented concretely
  (`a2b_base64`, `utf8Decode`); failure of either is `none`, which the
  validator wraps in the `ValueError` the source raises.
-/

/-- A deserialized YAML/JSON value: the raw input of the config validator. -/
inductive Value where
  | vnull : Value
  | vbool : Bool → Value
  | vint : Int → Value
  | vfloat : Rat → Value
  | vstr : String → Value
  | vlist : List Value → Value
  | vdict : List (String × Value) → Value

/-- Error taxonomy of the validator: Python `AssertionError` (from
`assert`), `ValueError` (explicitly raised), `TypeError` (bad construction
or iteration), and the `UnboundLocalError` reachable at the end of
`load_and_validate_data_config`. -/
inductive ConfigError where
  | assertError : String → ConfigError
  | valueError : String → ConfigError
  | typeError : String → ConfigError
  | unboundLocalError : String → ConfigError
deriving DecidableEq, Repr

/-- First-match lookup in an association list, the Python `kwargs[k]` /
`k in kwargs` discipline for dicts (whose keys are unique). -/
def assocLookup : List (String × Value) → String → Option Value
  | [], _ => none
  | (k', v) :: rest, k => if k' = k then some v else assocLookup rest k

/-- Python `kwargs[k]` on a `Value` that may or may not be a dict. -/
def Value.lookup : Value → String → Option Value
  | .vdict kvs, k => assocLookup kvs k
  | _, _ => none

/-- Remove a key from an association list (used to state that a field is
ignored by a validator). -/
def eraseKey (kvs : List (String × Value)) (k : String) : List (String × Value) :=
  kvs.filter (fun kv => kv.1 ≠ k)

/-- Python `isinstance(v, (float, int))`.  `bool` is a subclass of `int`,
so booleans count as numeric. -/
def Value.isNumeric : Value → Bool
  | .vint _ => true
  | .vfloat _ => true
  | .vbool _ => true
  | _ => false

/-- Numeric value of a scalar, as used by `float(ratio)` and by the
`0.0 <= ratio <= 1.0` comparisons; `True` is 1 and `False` is 0.
Only applied after `isNumeric` holds. -/
def Value.toRat : Value → Rat
  | .vint n => (n : Rat)
  | .vfloat q => q
  | .vbool b => if b then 1 else 0
  | _ => 0

/-- Python iteration `for x in v`: lists yield elements, strings yield
their characters (as one-character strings), dicts yield their keys;
anything else raises `TypeError`. -/
def Value.pyIter : Value → Option (List Value)
  | .vlist xs => some xs
  | .vstr s => some (s.data.map (fun ch => Value.vstr (String.mk [ch])))
  | .vdict kvs => some (kvs.map (fun kv => Value.vstr kv.1))
  | _ => none

/-- Embedding of the dataclass `DataHandlerConfig`. -/
structure DataHandlerConfig where
  name : String
  arguments : Option (List (String × Value))

/-- Embedding of the dataclass `DataSetConfig`.  `sampling` and the values
of `split` are Python floats, embedded as `Rat`. -/
structure DataSetConfig where
  name : String
  data_paths : List String
  builder : Option String := none
  sampling : Option Rat := none
  data_handlers : Option (List DataHandlerConfig) := none
  split : Option (List (String × Rat)) := none

/-- Embedding of the dataclass `DataPreProcessorConfig` with its field
defaults.  `seed` is asserted to be an `int` by the validator and is
stored as `Int` (a boolean seed, accepted because `bool <: int`, is stored
by its numeric value). -/
structure DataPreProcessorConfig where
  type : Option String := some "default"
  sampling_stopping_strategy : Option String := some "all_exhausted"
  seed : Option Int := some 42
  streaming : Option Bool := some false
  chat_template : Option String := none

/-- Embedding of the dataclass `DataConfig`. -/
structure DataConfig where
  dataprocessor : DataPreProcessorConfig
  datasets : List DataSetConfig

/-- The filesystem state observed by path normalization:
`os.path.exists` and `os.path.abspath` (resolution against the current
working directory). -/
structure FileSystem where
  pathExists : String → Bool
  abspath : String → String

/-- Python `os.path.isabs` on posix: the path starts with a slash. -/
def os_path_isabs (p : String) : Bool :=
  match p.data with
  | [] => false
  | c :: _ => c = '/'


/-- Value of a base64 alphabet character, `none` for characters outside
the alphabet (which `b64decode` discards in non-validating mode). -/
def b64val (c : Char) : Option Nat :=
  if 'A' ≤ c ∧ c ≤ 'Z' then some (c.toNat - 65)
  else if 'a' ≤ c ∧ c ≤ 'z' then some (c.toNat - 97 + 26)
  else if '0' ≤ c ∧ c ≤ '9' then some (c.toNat - 48 + 52)
  else if c = '+' then some 62
  else if c = '/' then some 63
  else none

/-- CPython `binascii.a2b_base64` in non-strict mode, as called by
`base64.b64decode` with `validate=False`: characters outside the alphabet
are discarded, quads are accumulated six bits at a time
(`quadPos`/`leftchar`), a sufficient run of `=` padding terminates
decoding successfully, and a leftover partial quad at the end is an
error. -/
def a2b_base64 : List Char → Nat → Nat → Nat → List Nat → Option (List Nat)
  | [], quadPos, _, _, acc =>
    if quadPos = 0 then some acc.reverse else none
  | c :: rest, quadPos, leftchar, pads, acc =>
    if c = '=' then
      if 2 ≤ quadPos ∧ 4 ≤ quadPos + (pads + 1) then some acc.reverse
      else a2b_base64 rest quadPos leftchar (pads + 1) acc
    else
      match b64val c with
      | none => a2b_base64 rest quadPos leftchar pads acc
      | some v =>
        match quadPos with
        | 0 => a2b_base64 rest 1 v 0 acc
        | 1 => a2b_base64 rest 2 (v % 16) 0 ((leftchar * 4 + v / 16) :: acc)
        | 2 => a2b_base64 rest 3 (v % 4) 0 ((leftchar * 16 + v / 4) :: acc)
        | _ => a2b_base64 rest 0 0 0 ((leftchar * 64 + v) :: acc)

/-- Python `base64.b64decode` applied to a `str`: the string is first
ASCII-encoded (failing on any character above 127), then fed to
`a2b_base64`. -/
def b64decodeBytes (s : String) : Option (List Nat) :=
  if s.data.all (fun c => c.toNat < 128) then a2b_base64 s.data 0 0 0 []
  else none

/-- Strict UTF-8 decoding of a byte sequence (Python `bytes.decode("utf-8")`):
rejects continuation bytes in lead position, overlong encodings, surrogate
code points and code points above U+10FFFF. -/
def utf8Decode : List Nat → Option (List Char)
  | [] => some []
  | b :: l =>
    if b < 0x80 then
      (utf8Decode l).map (fun cs => Char.ofNat b :: cs)
    else if b < 0xC2 then none
    else if b < 0xE0 then
      match l with
      | b1 :: l1 =>
        if 0x80 ≤ b1 ∧ b1 < 0xC0 then
          (utf8Decode l1).map (fun cs =>
            Char.ofNat ((b - 0xC0) * 64 + (b1 - 0x80)) :: cs)
        else none
      | [] => none
    else if b < 0xF0 then
      match l with
      | b1 :: b2 :: l2 =>
        if (0x80 ≤ b1 ∧ b1 < 0xC0) ∧ (0x80 ≤ b2 ∧ b2 < 0xC0)
            ∧ (b = 0xE0 → 0xA0 ≤ b1) ∧ (b = 0xED → b1 < 0xA0) then
          (utf8Decode l2).map (fun cs =>
            Char.ofNat ((b - 0xE0) * 4096 + (b1 - 0x80) * 64 + (b2 - 0x80)) :: cs)
        else none
      | _ => none
    else if b < 0xF5 then
      match l with
      | b1 :: b2 :: b3 :: l3 =>
        if (0x80 ≤ b1 ∧ b1 < 0xC0) ∧ (0x80 ≤ b2 ∧ b2 < 0xC0)
            ∧ (0x80 ≤ b3 ∧ b3 < 0xC0)
            ∧ (b = 0xF0 → 0x90 ≤ b1) ∧ (b = 0xF4 → b1 < 0x90) then
          (utf8Decode l3).map (fun cs =>
            Char.ofNat ((b - 0xF0) * 262144 + (b1 - 0x80) * 4096
              + (b2 - 0x80) * 64 + (b3 - 0x80)) :: cs)
        else none
      | _ => none
    else none

/-- The composite decoding performed inside the `try` block of
`_validate_dataprocessor_config`: `b64decode` then `.decode("utf-8")`. -/
def b64decodeUtf8 (s : String) : Option String :=
  (b64decodeBytes s).bind (fun bs => (utf8Decode bs).map String.mk)

/-- Effectful map over a list in the `Except` monad, evaluating left to
right and stopping at the first error, as a Python `for` loop of
validations does. -/
def exceptMapM (f : α → Except ConfigError β) : List α → Except ConfigError (List β)
  | [] => .ok []
  | x :: rest => (f x).bind (fun y => (exceptMapM f rest).map (fun ys => y :: ys))

/-- The `data_handlers` entry validation `_validate_data_handler_config`:
the entry must be a dict with a string `name` and a dict `arguments`; the
final `DataHandlerConfig(**kwargs)` construction additionally raises
`TypeError` on any unexpected key. -/
def _validate_data_handler_config (data_handler : Value) : Except ConfigError DataHandlerConfig :=
  match data_handler with
  | .vdict kvs =>
    match assocLookup kvs "name" with
    | some (.vstr nm) =>
      match assocLookup kvs "arguments" with
      | some (.vdict args) =>
        if kvs.all (fun kv => kv.1 == "name" || kv.1 == "arguments") then
          .ok { name := nm, arguments := some args }
        else .error (.typeError "DataHandlerConfig got an unexpected keyword argument")
      | some _ => .error (.assertError "data handler arguments should be of the type dict")
      | none => .error (.assertError "data handlers need to have arguments")
    | some _ => .error (.assertError "data_handlers need to have a name with type str")
    | none => .error (.assertError "data_handlers need to have a name with type str")
  | _ => .error (.assertError "data_handlers in data_config needs to be a dict")

/-- The `name` handling of `_validate_dataset_config`:
`kwargs.get("name", "")` combined with the type assertion run when the key
is present. -/
def _ds_name (opt : Option Value) : Except ConfigError String :=
  match opt with
  | none => .ok ""
  | some (.vstr s) => .ok s
  | some _ => .error (.assertError "dataset name should be string")

/-- The per-path body of the `data_paths` loop of
`_validate_dataset_config`: each element must be a string; a relative path
whose absolute form exists is rewritten to that absolute form (a logged,
non-fatal normalization). -/
def _validate_data_paths (fs : FileSystem) : List Value → Except ConfigError (List String)
  | [] => .ok []
  | v :: rest =>
    match v with
    | .vstr p =>
      let p' := if !os_path_isabs p && fs.pathExists (fs.abspath p) then fs.abspath p else p
      ((_validate_data_paths fs rest).map (fun ps => p' :: ps))
    | _ => .error (.assertError "path should be of the type string")

/-- The `data_paths` handling of `_validate_dataset_config`: the key is
required (`ValueError` if absent), must be a list (assertion), and its
elements go through `_validate_data_paths`. -/
def _ds_data_paths (fs : FileSystem) (opt : Option Value) : Except ConfigError (List String) :=
  match opt with
  | none => .error (.valueError "data_paths should be specified for each dataset")
  | some (.vlist l) => _validate_data_paths fs l
  | some _ => .error (.assertError "data_paths should be an array of files")

/-- The `builder` handling of `_validate_dataset_config`: the field is
read only when present and not `None`, and must then be a string. -/
def _ds_builder (opt : Option Value) (c : DataSetConfig) : Except ConfigError DataSetConfig :=
  match opt with
  | none => .ok c
  | some .vnull => .ok c
  | some (.vstr b) => .ok { c with builder := some b }
  | some _ => .error (.assertError "builder should be a string representing a supported Hugging Face dataset builder")

/-- The `sampling` handling of `_validate_dataset_config`: when present
and not `None`, the value must satisfy
`isinstance(ratio, (float, int)) and 0.0 <= ratio <= 1.0` and is stored
as `float(ratio)`. -/
def _ds_sampling (opt : Option Value) (c : DataSetConfig) : Except ConfigError DataSetConfig :=
  match opt with
  | none => .ok c
  | some .vnull => .ok c
  | some v =>
    if v.isNumeric ∧ 0 ≤ v.toRat ∧ v.toRat ≤ 1 then
      .ok { c with sampling := some v.toRat }
    else .error (.assertError "sampling ratio should be float and in range [0.0,1.0]")

/-- The `data_handlers` handling of `_validate_dataset_config`: when the
key is present the value is iterated (Python `for`, hence `TypeError` on
a non-iterable) and every element is validated as a handler entry; an
absent key leaves the field `None`, distinct from an empty list. -/
def _ds_data_handlers (opt : Option Value) (c : DataSetConfig) : Except ConfigError DataSetConfig :=
  match opt with
  | none => .ok c
  | some v =>
    match v.pyIter with
    | none => .error (.typeError "data_handlers object is not iterable")
    | some items =>
      ((exceptMapM _validate_data_handler_config items).map
        (fun hs => { c with data_handlers := some hs }))

/-- The per-entry body of the `split` loop of `_validate_dataset_config`:
each value must be numeric in `[0, 1]` and is stored as `float(v)`.
Keys of the embedded dict are strings by construction, which discharges
the `isinstance(key, str)` assertion. -/
def _split_entries : List (String × Value) → Except ConfigError (List (String × Rat))
  | [] => .ok []
  | (k, v) :: rest =>
    if v.isNumeric ∧ 0 ≤ v.toRat ∧ v.toRat ≤ 1 then
      ((_split_entries rest).map (fun t => (k, v.toRat) :: t))
    else .error (.assertError "split ratio must be a float in [0.0, 1.0]")

/-- The `split` handling of `_validate_dataset_config`: when present and
not `None`, the value must be a dict and every entry is range-checked and
coerced to float. -/
def _ds_split (opt : Option Value) (c : DataSetConfig) : Except ConfigError DataSetConfig :=
  match opt with
  | none => .ok c
  | some .vnull => .ok c
  | some (.vdict skvs) =>
    ((_split_entries skvs).map (fun sp => { c with split := some sp }))
  | some _ => .error (.assertError "split must be a dictionary of split_name: ratio")

/-- Embedding of `_validate_dataset_config`: the entry must be a dict; the
fields are processed in source order (`name` type check, required
`data_paths` with path normalization, then `builder`, `sampling`,
`data_handlers`, `split`), stopping at the first violation. -/
def _validate_dataset_config (fs : FileSystem) (dataset_config : Value) : Except ConfigError DataSetConfig :=
  match dataset_config with
  | .vdict kvs =>
    (_ds_name (assocLookup kvs "name")).bind (fun nm =>
    (_ds_data_paths fs (assocLookup kvs "data_paths")).bind (fun dps =>
    (_ds_builder (assocLookup kvs "builder") { name := nm, data_paths := dps }).bind (fun c =>
    (_ds_sampling (assocLookup kvs "sampling") c).bind (fun c =>
    (_ds_data_handlers (assocLookup kvs "data_handlers") c).bind (fun c =>
    _ds_split (assocLookup kvs "split") c)))))
  | _ => .error (.assertError "dataset_config in data_config needs to be a dict")

/-- The `type` handling of `_validate_dataprocessor_config`. -/
def _dpp_type (opt : Option Value) (c : DataPreProcessorConfig) : Except ConfigError DataPreProcessorConfig :=
  match opt with
  | none => .ok c
  | some (.vstr s) => .ok { c with type := some s }
  | some _ => .error (.assertError "dataprocessor type must be a string")

/-- The `sampling_stopping_strategy` handling of
`_validate_dataprocessor_config`: when present the value must be a string
and one of `first_exhausted` / `all_exhausted`. -/
def _dpp_strategy (opt : Option Value) (c : DataPreProcessorConfig) : Except ConfigError DataPreProcessorConfig :=
  match opt with
  | none => .ok c
  | some (.vstr s) =>
    if s = "first_exhausted" ∨ s = "all_exhausted" then
      .ok { c with sampling_stopping_strategy := some s }
    else .error (.assertError "allowed sampling stopping strategies are all_exhausted(default) or first_exhausted")
  | some _ => .error (.assertError "dataset sampling stopping strategy must be a string")

/-- The `seed` handling of `_validate_dataprocessor_config`:
`isinstance(seed, int)` accepts `int` and `bool` (stored by numeric
value). -/
def _dpp_seed (opt : Option Value) (c : DataPreProcessorConfig) : Except ConfigError DataPreProcessorConfig :=
  match opt with
  | none => .ok c
  | some (.vint n) => .ok { c with seed := some n }
  | some (.vbool b) => .ok { c with seed := some (if b then 1 else 0) }
  | some _ => .error (.assertError "seed should be int")

/-- The `streaming` handling of `_validate_dataprocessor_config`. -/
def _dpp_streaming (opt : Option Value) (c : DataPreProcessorConfig) : Except ConfigError DataPreProcessorConfig :=
  match opt with
  | none => .ok c
  | some (.vbool b) => .ok { c with streaming := some b }
  | some _ => .error (.assertError "streaming should be a bool")

/-- The chat-template handling of `_validate_dataprocessor_config`: a
present `chat_template` must be a string and wins outright (the
`chat_template_base64` key is then never read, because of the `elif`);
otherwise a present `chat_template_base64` must be a string and is
base64-decoded as UTF-8 text inside a `try` block whose failure is
re-raised as a `ValueError`. -/
def _dpp_chat_template (optCt optB64 : Option Value) (c : DataPreProcessorConfig) : Except ConfigError DataPreProcessorConfig :=
  match optCt with
  | some (.vstr s) => .ok { c with chat_template := some s }
  | some _ => .error (.assertError "chat_template should be a string")
  | none =>
    match optB64 with
    | none => .ok c
    | some (.vstr s) =>
      match b64decodeUtf8 s with
      | some t => .ok { c with chat_template := some t }
      | none => .error (.valueError "You passed the chat_template_base64 field which failed during decoding. Please check it or use a decoded chat template with the chat_template field.")
    | some _ => .error (.assertError "chat_template_base64 should be a string")

/-- Embedding of `_validate_dataprocessor_config`: starts from a
default-constructed `DataPreProcessorConfig` and processes the optional
fields in source order, stopping at the first violation. -/
def _validate_dataprocessor_config (dataprocessor_config : Value) : Except ConfigError DataPreProcessorConfig :=
  match dataprocessor_config with
  | .vdict kvs =>
    (_dpp_type (assocLookup kvs "type") {}).bind (fun c =>
    (_dpp_strategy (assocLookup kvs "sampling_stopping_strategy") c).bind (fun c =>
    (_dpp_seed (assocLookup kvs "seed") c).bind (fun c =>
    (_dpp_streaming (assocLookup kvs "streaming") c).bind (fun c =>
    _dpp_chat_template (assocLookup kvs "chat_template")
      (assocLookup kvs "chat_template_base64") c))))
  | _ => .error (.assertError "dataprocessor in data_config needs to be a dict")

/-- Embedding of `load_and_validate_data_config` from the point where the
external `load_yaml_or_json` has produced the raw document: the document
must be a dict with a `datasets` list whose entries are each validated;
`dataprocessor` is validated only when present — when absent, the local
variable `dataprocessor` is read uninitialized at the `DataConfig`
construction, raising `UnboundLocalError`. -/
def load_and_validate_data_config (fs : FileSystem) (raw_data : Value) : Except ConfigError DataConfig :=
  match raw_data with
  | .vdict kvs =>
    match assocLookup kvs "datasets" with
    | none => .error (.assertError "datasets should be provided in data config")
    | some (.vlist ds) =>
      match exceptMapM (_validate_dataset_config fs) ds with
      | .error e => .error e
      | .ok datasets =>
        match assocLookup kvs "dataprocessor" with
        | some dp =>
          match _validate_dataprocessor_config dp with
          | .error e => .error e
          | .ok p => .ok { dataprocessor := p, datasets := datasets }
        | none => .error (.unboundLocalError "local variable dataprocessor referenced before assignment")
    | some _ => .error (.assertError "datasets should be provided as a list")
  | _ => .error (.assertError "The provided data_config file is invalid")

/-- Modelled from the spec: the data handler
`skip_samples_with_large_columns(record, column_name, max_allowed_length)`
of `tuning/data/data_handlers.py`, whose implementation file is not in the
source tree (only its tests are).  It returns true (keep) iff the element
count of `record[column_name]` is at most `max_allowed_length`, and raises
a `ValueError` when `column_name` is `None`, absent from the record, or
`max_allowed_length` is `None`. -/
def skip_samples_with_large_columns (record : List (String × Value))
    (column_name : Option String) (max_allowed_length : Option Int) : Except ConfigError Bool :=
  match column_name, max_allowed_length with
  | some col, some maxLen =>
    match assocLookup record col with
    | some (.vlist xs) => .ok (decide ((xs.length : Int) ≤ maxLen))
    | some (.vstr s) => .ok (decide ((s.length : Int) ≤ maxLen))
    | some _ => .error (.typeError "object has no len()")
    | none => .error (.valueError "column_name must be a valid column of the record")
  | _, _ => .error (.valueError "column_name and max_allowed_length must not be None")

/-- A trivial filesystem in which no path exists and `abspath` is the
identity; used to instantiate theorems at concrete inputs. -/
def fsId : FileSystem :=
  { pathExists := fun _ => false, abspath := fun p => p }

/-- A small concrete filesystem: the working directory is `/cwd` and only
`/cwd/a` exists. -/
def fsDemo : FileSystem :=
  { pathExists := fun p => p = "/cwd/a"
    abspath := fun p => if os_path_isabs p then p else "/cwd/" ++ p }

/-- A raw document with an empty `datasets` list and an (empty) explicit
`dataprocessor` entry. -/
def rawEmptyDatasets : Value :=
  .vdict [("datasets", .vlist []), ("dataprocessor", .vdict [])]

/-- A raw document with one minimal dataset entry and an explicit
`dataprocessor` entry. -/
def rawOneDataset : Value :=
  .vdict [("datasets", .vlist [.vdict [("data_paths", .vlist [])]]),
          ("dataprocessor", .vdict [])]

/-- The `DataConfig` produced for `rawOneDataset`. -/
def cfgOneDataset : DataConfig :=
  { dataprocessor := {}, datasets := [{ name := "", data_paths := [] }] }

/-- Inversion of a successful `Except.bind`. -/
theorem except_bind_eq_ok {α β : Type} {e : Except ConfigError α}
    {f : α → Except ConfigError β} {b : β}
    (h : e.bind f = .ok b) : ∃ a, e = .ok a ∧ f a = .ok b := by
  cases e with
  | error ε => simp [Except.bind] at h
  | ok a => exact ⟨a, rfl, by simpa [Except.bind] using h⟩

/-- Inversion of a successful `Except.map`. -/
theorem except_map_eq_ok {α β : Type} {e : Except ConfigError α}
    {g : α → β} {b : β}
    (h : e.map g = .ok b) : ∃ a, e = .ok a ∧ g a = b := by
  cases e with
  | error ε => simp [Except.map] at h
  | ok a => exact ⟨a, rfl, by simpa [Except.map] using h⟩

/-- A successful `exceptMapM` produces one output per input. -/
theorem exceptMapM_ok_length {α β : Type} {f : α → Except ConfigError β} :
    ∀ {l : List α} {res : List β}, exceptMapM f l = .ok res → res.length = l.length := by
  intro l
  induction l with
  | nil =>
    intro res h
    simp only [exceptMapM] at h
    cases h
    rfl
  | cons x rest ih =>
    intro res h
    simp only [exceptMapM] at h
    obtain ⟨y, _, h2⟩ := except_bind_eq_ok h
    obtain ⟨ys, hys, h3⟩ := except_map_eq_ok h2
    subst h3
    simpa using ih hys

/-- Claim C1 (counterexample): a document whose `datasets` key is an empty
list is not rejected — `load_and_validate_data_config` accepts it and
returns a `DataConfig` whose sequence of datasets is empty. -/
theorem empty_datasets_list_accepted :
    load_and_validate_data_config fsId rawEmptyDatasets
      = .ok { dataprocessor := {}, datasets := [] } := by
  rfl

/-- Claim C1 (amended): for every raw document accepted by
`load_and_validate_data_config`, the `datasets` key is present and a list,
and the returned `DataConfig` has exactly one validated dataset per
element of that list (so absent or non-list `datasets` is rejected, but an
empty `datasets` list is accepted and yields an empty sequence of
datasets). -/
theorem accepted_document_datasets_shape
    (fs : FileSystem) (raw : Value) (cfg : DataConfig)
    (h : load_and_validate_data_config fs raw = .ok cfg) :
    ∃ l, raw.lookup "datasets" = some (.vlist l) ∧ cfg.datasets.length = l.length := by
  cases raw with
  | vdict kvs =>
    simp only [load_and_validate_data_config] at h
    split at h
    · exact Except.noConfusion h
    · split at h
      · exact Except.noConfusion h
      · split at h
        · split at h
          · exact Except.noConfusion h
          · cases h
            rename_i opt1 dsl hds x1 dss hmm opt2 dpv hdp x2 p hv
            exact ⟨dsl, by simp [Value.lookup, hds], exceptMapM_ok_length hmm⟩
        · exact Except.noConfusion h
    · exact Except.noConfusion h
  | vnull => exact Except.noConfusion h
  | vbool b => exact Except.noConfusion h
  | vint n => exact Except.noConfusion h
  | vfloat q => exact Except.noConfusion h
  | vstr s => exact Except.noConfusion h
  | vlist l => exact Except.noConfusion h

/-- Witness for the amended claim C1 at a concrete accepted document with
one dataset entry. -/
theorem accepted_document_datasets_shape_witness :
    ∃ l, rawOneDataset.lookup "datasets" = some (.vlist l)
      ∧ cfgOneDataset.datasets.length = l.length :=
  accepted_document_datasets_shape fsId rawOneDataset cfgOneDataset rfl

/-- Claim C2: a raw document that lacks the `dataprocessor` key makes
`load_and_validate_data_config` raise (`UnboundLocalError` on the
uninitialized local, or an earlier validation error) rather than return a
`DataConfig`; no `DataPreProcessorConfig` is default-constructed. -/
theorem missing_dataprocessor_never_returns
    (fs : FileSystem) (raw : Value)
    (h : raw.lookup "dataprocessor" = none) :
    ∃ e, load_and_validate_data_config fs raw = .error e := by
  cases hres : load_and_validate_data_config fs raw with
  | error e => exact ⟨e, rfl⟩
  | ok cfg =>
  exfalso
  have hok := hres
  cases raw with
  | vdict kvs =>
    simp only [Value.lookup] at h
    simp only [load_and_validate_data_config] at hok
    split at hok
    · exact Except.noConfusion hok
    · split at hok
      · exact Except.noConfusion hok
      · split at hok
        · rename_i opt1 dsl hds x1 dss hmm opt2 dpv hdp
          rw [h] at hdp
          exact Option.noConfusion hdp
        · exact Except.noConfusion hok
    · exact Except.noConfusion hok
  | vnull => exact Except.noConfusion hok
  | vbool b => exact Except.noConfusion hok
  | vint n => exact Except.noConfusion hok
  | vfloat q => exact Except.noConfusion hok
  | vstr s => exact Except.noConfusion hok
  | vlist l => exact Except.noConfusion hok

/-- Witness for claim C2: a concrete document with a valid `datasets` list
but no `dataprocessor` key makes validation raise. -/
theorem missing_dataprocessor_never_returns_witness :
    ∃ e, load_and_validate_data_config fsId
      (.vdict [("datasets", .vlist [])]) = .error e :=
  missing_dataprocessor_never_returns fsId (.vdict [("datasets", .vlist [])]) rfl

/-- Claim C10: `load_and_validate_data_config` is deterministic — on
structurally identical raw documents, observed under the same filesystem
state, it produces structurally identical results.  All effects of the
source function (the existence checks and path resolution) are explicit in
the `FileSystem` argument, so the embedding is a pure function and two
runs agree definitionally. -/
theorem load_and_validate_deterministic
    (fs : FileSystem) (raw1 raw2 : Value) (h : raw1 = raw2) :
    load_and_validate_data_config fs raw1 = load_and_validate_data_config fs raw2 := by
  rw [h]

/-- Witness for claim C10 at a concrete document. -/
theorem load_and_validate_deterministic_witness :
    load_and_validate_data_config fsId rawOneDataset
      = load_and_validate_data_config fsId rawOneDataset :=
  load_and_validate_deterministic fsId rawOneDataset rawOneDataset rfl

/-- Erasing one key does not change lookups of other keys. -/
theorem assocLookup_eraseKey_ne {kvs : List (String × Value)} {k k' : String}
    (h : k' ≠ k) : assocLookup (eraseKey kvs k) k' = assocLookup kvs k' := by
  induction kvs with
  | nil => rfl
  | cons kv rest ih =>
    obtain ⟨a, v⟩ := kv
    by_cases ha : a = k
    · subst ha
      have hne : ¬ a = k' := fun e => h (by rw [e])
      simp [eraseKey, List.filter_cons, assocLookup, hne] at ih ⊢
      exact ih
    · by_cases hak : a = k'
      · subst hak
        simp [eraseKey, List.filter_cons, assocLookup, ha]
      · simp [eraseKey, List.filter_cons, assocLookup, ha, hak] at ih ⊢
        exact ih

/-- A successful `_dpp_type` step leaves the strategy and chat-template
fields untouched. -/
theorem _dpp_type_preserves {opt : Option Value} {c c' : DataPreProcessorConfig}
    (h : _dpp_type opt c = .ok c') :
    c'.sampling_stopping_strategy = c.sampling_stopping_strategy
      ∧ c'.chat_template = c.chat_template := by
  simp only [_dpp_type] at h
  split at h <;> first
    | (cases h; exact ⟨rfl, rfl⟩)
    | exact Except.noConfusion h

/-- Behavior of the `sampling_stopping_strategy` step: success leaves the
chat template untouched, and either the key was absent (field unchanged)
or the value was one of the two allowed enum strings and is stored. -/
theorem _dpp_strategy_spec {opt : Option Value} {c c' : DataPreProcessorConfig}
    (h : _dpp_strategy opt c = .ok c') :
    c'.chat_template = c.chat_template ∧
    ((opt = none ∧ c'.sampling_stopping_strategy = c.sampling_stopping_strategy)
     ∨ (∃ s, opt = some (.vstr s) ∧ (s = "first_exhausted" ∨ s = "all_exhausted")
         ∧ c'.sampling_stopping_strategy = some s)) := by
  cases opt with
  | none =>
    simp only [_dpp_strategy] at h
    cases h
    exact ⟨rfl, Or.inl ⟨rfl, rfl⟩⟩
  | some v =>
    cases v with
    | vstr s =>
      simp only [_dpp_strategy] at h
      by_cases hin : s = "first_exhausted" ∨ s = "all_exhausted"
      · rw [if_pos hin] at h
        cases h
        exact ⟨rfl, Or.inr ⟨s, rfl, hin, rfl⟩⟩
      · rw [if_neg hin] at h
        exact Except.noConfusion h
    | vnull => exact Except.noConfusion h
    | vbool b => exact Except.noConfusion h
    | vint n => exact Except.noConfusion h
    | vfloat q => exact Except.noConfusion h
    | vlist l => exact Except.noConfusion h
    | vdict d => exact Except.noConfusion h

/-- A successful `_dpp_seed` step leaves the strategy and chat-template
fields untouched. -/
theorem _dpp_seed_preserves {opt : Option Value} {c c' : DataPreProcessorConfig}
    (h : _dpp_seed opt c = .ok c') :
    c'.sampling_stopping_strategy = c.sampling_stopping_strategy
      ∧ c'.chat_template = c.chat_template := by
  simp only [_dpp_seed] at h
  split at h <;> first
    | (cases h; exact ⟨rfl, rfl⟩)
    | exact Except.noConfusion h

/-- A successful `_dpp_streaming` step leaves the strategy and
chat-template fields untouched. -/
theorem _dpp_streaming_preserves {opt : Option Value} {c c' : DataPreProcessorConfig}
    (h : _dpp_streaming opt c = .ok c') :
    c'.sampling_stopping_strategy = c.sampling_stopping_strategy
      ∧ c'.chat_template = c.chat_template := by
  simp only [_dpp_streaming] at h
  split at h <;> first
    | (cases h; exact ⟨rfl, rfl⟩)
    | exact Except.noConfusion h

/-- A successful chat-template step leaves the strategy field untouched. -/
theorem _dpp_chat_template_preserves_strategy {o1 o2 : Option Value}
    {c c' : DataPreProcessorConfig}
    (h : _dpp_chat_template o1 o2 c = .ok c') :
    c'.sampling_stopping_strategy = c.sampling_stopping_strategy := by
  cases o1 with
  | some v =>
    cases v with
    | vstr s => simp only [_dpp_chat_template] at h; cases h; rfl
    | vnull => exact Except.noConfusion h
    | vbool b => exact Except.noConfusion h
    | vint n => exact Except.noConfusion h
    | vfloat q => exact Except.noConfusion h
    | vlist l => exact Except.noConfusion h
    | vdict d => exact Except.noConfusion h
  | none =>
    cases o2 with
    | none => simp only [_dpp_chat_template] at h; cases h; rfl
    | some v =>
      cases v with
      | vstr s =>
        simp only [_dpp_chat_template] at h
        cases hdec : b64decodeUtf8 s with
        | some t => rw [hdec] at h; cases h; rfl
        | none => rw [hdec] at h; exact Except.noConfusion h
      | vnull => exact Except.noConfusion h
      | vbool b => exact Except.noConfusion h
      | vint n => exact Except.noConfusion h
      | vfloat q => exact Except.noConfusion h
      | vlist l => exact Except.noConfusion h
      | vdict d => exact Except.noConfusion h

/-- Decomposition of a successful run of `_validate_dataprocessor_config`
into its five field-processing steps. -/
theorem _validate_dataprocessor_config_ok_chain {kvs : List (String × Value)}
    {c : DataPreProcessorConfig}
    (h : _validate_dataprocessor_config (.vdict kvs) = .ok c) :
    ∃ c1 c2 c3 c4,
      _dpp_type (assocLookup kvs "type") {} = .ok c1 ∧
      _dpp_strategy (assocLookup kvs "sampling_stopping_strategy") c1 = .ok c2 ∧
      _dpp_seed (assocLookup kvs "seed") c2 = .ok c3 ∧
      _dpp_streaming (assocLookup kvs "streaming") c3 = .ok c4 ∧
      _dpp_chat_template (assocLookup kvs "chat_template")
        (assocLookup kvs "chat_template_base64") c4 = .ok c := by
  simp only [_validate_dataprocessor_config] at h
  obtain ⟨c1, h1, h⟩ := except_bind_eq_ok h
  obtain ⟨c2, h2, h⟩ := except_bind_eq_ok h
  obtain ⟨c3, h3, h⟩ := except_bind_eq_ok h
  obtain ⟨c4, h4, h⟩ := except_bind_eq_ok h
  exact ⟨c1, c2, c3, c4, h1, h2, h3, h4, h⟩

/-- Claim C3: for a preprocessor entry with `chat_template_base64` (a
string) and no `chat_template`, a successful base64-then-UTF-8 decode
makes the resulting `DataPreProcessorConfig.chat_template` equal exactly
the decoded text (the accompanying deprecation warning is a non-fatal log
and does not affect the result), while a decode failure makes validation
fail (the source wraps the underlying decode error in a `ValueError`). -/
theorem chat_template_base64_decoding (kwargs : Value) (s : String)
    (h1 : kwargs.lookup "chat_template" = none)
    (h2 : kwargs.lookup "chat_template_base64" = some (.vstr s)) :
    (∀ t c, b64decodeUtf8 s = some t →
        _validate_dataprocessor_config kwargs = .ok c → c.chat_template = some t)
    ∧ (b64decodeUtf8 s = none →
        ∀ c, _validate_dataprocessor_config kwargs ≠ .ok c) := by
  cases kwargs with
  | vdict kvs =>
    simp only [Value.lookup] at h1 h2
    constructor
    · intro t c hdec hok
      obtain ⟨c1, c2, c3, c4, g1, g2, g3, g4, g5⟩ :=
        _validate_dataprocessor_config_ok_chain hok
      rw [h1, h2] at g5
      simp only [_dpp_chat_template, hdec] at g5
      cases g5
      rfl
    · intro hdec c hok
      obtain ⟨c1, c2, c3, c4, g1, g2, g3, g4, g5⟩ :=
        _validate_dataprocessor_config_ok_chain hok
      rw [h1, h2] at g5
      simp only [_dpp_chat_template, hdec] at g5
      exact Except.noConfusion g5
  | vnull => exact Option.noConfusion h2
  | vbool b => exact Option.noConfusion h2
  | vint n => exact Option.noConfusion h2
  | vfloat q => exact Option.noConfusion h2
  | vstr s2 => exact Option.noConfusion h2
  | vlist l => exact Option.noConfusion h2

/-- Witness for claim C3: decoding the base64 string of "hello". -/
theorem chat_template_base64_decoding_witness :
    ({ chat_template := some "hello" } : DataPreProcessorConfig).chat_template
      = some "hello" :=
  (chat_template_base64_decoding
      (.vdict [("chat_template_base64", .vstr "aGVsbG8=")]) "aGVsbG8="
      rfl rfl).1 "hello" { chat_template := some "hello" } rfl rfl

/-- Claim C4: when a preprocessor entry has both `chat_template` and
`chat_template_base64`, the directly supplied `chat_template` (a string)
is the effective one, and the base64 field is ignored entirely: the
validation result is unchanged if that key is erased from the entry. -/
theorem chat_template_direct_precedence (kvs : List (String × Value))
    (t : String) (w : Value)
    (h1 : assocLookup kvs "chat_template" = some (.vstr t))
    (_h2 : assocLookup kvs "chat_template_base64" = some w) :
    (∀ c, _validate_dataprocessor_config (.vdict kvs) = .ok c →
        c.chat_template = some t)
    ∧ _validate_dataprocessor_config (.vdict kvs)
        = _validate_dataprocessor_config (.vdict (eraseKey kvs "chat_template_base64")) := by
  constructor
  · intro c hok
    obtain ⟨c1, c2, c3, c4, g1, g2, g3, g4, g5⟩ :=
      _validate_dataprocessor_config_ok_chain hok
    rw [h1] at g5
    simp only [_dpp_chat_template] at g5
    cases g5
    rfl
  · simp only [_validate_dataprocessor_config]
    simp only [assocLookup_eraseKey_ne (show ("type" : String) ≠ "chat_template_base64" by decide)]
    simp only [assocLookup_eraseKey_ne (show ("sampling_stopping_strategy" : String) ≠ "chat_template_base64" by decide)]
    simp only [assocLookup_eraseKey_ne (show ("seed" : String) ≠ "chat_template_base64" by decide)]
    simp only [assocLookup_eraseKey_ne (show ("streaming" : String) ≠ "chat_template_base64" by decide)]
    simp only [assocLookup_eraseKey_ne (show ("chat_template" : String) ≠ "chat_template_base64" by decide)]
    simp only [h1]
    rfl

/-- Witness for claim C4: a concrete entry carrying both fields validates
identically with and without the base64 field. -/
theorem chat_template_direct_precedence_witness :
    _validate_dataprocessor_config
        (.vdict [("chat_template", .vstr "X"), ("chat_template_base64", .vstr "ignored")])
      = _validate_dataprocessor_config
        (.vdict (eraseKey [("chat_template", .vstr "X"), ("chat_template_base64", .vstr "ignored")]
          "chat_template_base64")) :=
  (chat_template_direct_precedence
      [("chat_template", .vstr "X"), ("chat_template_base64", .vstr "ignored")]
      "X" (.vstr "ignored") rfl rfl).2

/-- Claim C7: if `_validate_dataprocessor_config` succeeds, then a present
`sampling_stopping_strategy` was the string `first_exhausted` or
`all_exhausted` (anything else fails validation) and is stored, and an
absent key leaves the default `all_exhausted`. -/
theorem sampling_stopping_strategy_validation (kwargs : Value)
    (c : DataPreProcessorConfig)
    (h : _validate_dataprocessor_config kwargs = .ok c) :
    match kwargs.lookup "sampling_stopping_strategy" with
    | none => c.sampling_stopping_strategy = some "all_exhausted"
    | some v => ∃ s, v = .vstr s ∧ (s = "first_exhausted" ∨ s = "all_exhausted")
        ∧ c.sampling_stopping_strategy = some s := by
  cases kwargs with
  | vdict kvs =>
    obtain ⟨c1, c2, c3, c4, g1, g2, g3, g4, g5⟩ :=
      _validate_dataprocessor_config_ok_chain h
    have e1 := (_dpp_type_preserves g1).1
    have e2 := _dpp_strategy_spec g2
    have e3 := (_dpp_seed_preserves g3).1
    have e4 := (_dpp_streaming_preserves g4).1
    have e5 := _dpp_chat_template_preserves_strategy g5
    simp only [Value.lookup]
    cases hl : assocLookup kvs "sampling_stopping_strategy" with
    | none =>
      rcases e2.2 with ⟨_, e2n⟩ | ⟨s, hsome, _, _⟩
      · show c.sampling_stopping_strategy = some "all_exhausted"
        rw [e5, e4, e3, e2n, e1]
      · rw [hl] at hsome
        exact Option.noConfusion hsome
    | some v =>
      rcases e2.2 with ⟨hnone, _⟩ | ⟨s, hsome, hin, hset⟩
      · rw [hl] at hnone
        exact Option.noConfusion hnone
      · rw [hl] at hsome
        injection hsome with hv
        exact ⟨s, hv, hin, by rw [e5, e4, e3, hset]⟩
  | vnull => exact Except.noConfusion h
  | vbool b => exact Except.noConfusion h
  | vint n => exact Except.noConfusion h
  | vfloat q => exact Except.noConfusion h
  | vstr s => exact Except.noConfusion h
  | vlist l => exact Except.noConfusion h

/-- Witness for claim C7: a concrete entry with the allowed strategy
`first_exhausted` stores it. -/
theorem sampling_stopping_strategy_validation_witness :
    ∃ s, Value.vstr "first_exhausted" = .vstr s
      ∧ (s = "first_exhausted" ∨ s = "all_exhausted")
      ∧ ({ sampling_stopping_strategy := some "first_exhausted" }
          : DataPreProcessorConfig).sampling_stopping_strategy = some s :=
  sampling_stopping_strategy_validation
    (.vdict [("sampling_stopping_strategy", .vstr "first_exhausted")])
    { sampling_stopping_strategy := some "first_exhausted" } rfl

/-- A successful `_ds_builder` step leaves `data_paths` and `sampling`
untouched. -/
theorem _ds_builder_preserves {opt : Option Value} {c c' : DataSetConfig}
    (h : _ds_builder opt c = .ok c') :
    c'.data_paths = c.data_paths ∧ c'.sampling = c.sampling := by
  simp only [_ds_builder] at h
  split at h <;> first
    | (cases h; exact ⟨rfl, rfl⟩)
    | exact Except.noConfusion h

/-- A successful `_ds_sampling` step leaves `data_paths` untouched. -/
theorem _ds_sampling_preserves_paths {opt : Option Value} {c c' : DataSetConfig}
    (h : _ds_sampling opt c = .ok c') : c'.data_paths = c.data_paths := by
  simp only [_ds_sampling] at h
  split at h
  · cases h; rfl
  · cases h; rfl
  · split at h
    · cases h; rfl
    · exact Except.noConfusion h

/-- Behavior of the `sampling` step on a present, non-`None` value:
success forces the value to be numeric and within `[0, 1]`, and stores its
float coercion. -/
theorem _ds_sampling_spec {v : Value} {c c' : DataSetConfig}
    (hnn : v ≠ .vnull) (h : _ds_sampling (some v) c = .ok c') :
    v.isNumeric = true ∧ 0 ≤ v.toRat ∧ v.toRat ≤ 1 ∧ c'.sampling = some v.toRat := by
  cases v with
  | vnull => exact absurd rfl hnn
  | vbool b =>
    simp only [_ds_sampling] at h
    split at h
    · rename_i hcond
      cases h
      exact ⟨hcond.1, hcond.2.1, hcond.2.2, rfl⟩
    · exact Except.noConfusion h
  | vint n =>
    simp only [_ds_sampling] at h
    split at h
    · rename_i hcond
      cases h
      exact ⟨hcond.1, hcond.2.1, hcond.2.2, rfl⟩
    · exact Except.noConfusion h
  | vfloat q =>
    simp only [_ds_sampling] at h
    split at h
    · rename_i hcond
      cases h
      exact ⟨hcond.1, hcond.2.1, hcond.2.2, rfl⟩
    · exact Except.noConfusion h
  | vstr s =>
    simp only [_ds_sampling] at h
    split at h
    · rename_i hcond
      exact absurd hcond.1 (by simp [Value.isNumeric])
    · exact Except.noConfusion h
  | vlist l =>
    simp only [_ds_sampling] at h
    split at h
    · rename_i hcond
      exact absurd hcond.1 (by simp [Value.isNumeric])
    · exact Except.noConfusion h
  | vdict d =>
    simp only [_ds_sampling] at h
    split at h
    · rename_i hcond
      exact absurd hcond.1 (by simp [Value.isNumeric])
    · exact Except.noConfusion h

/-- A successful `_ds_data_handlers` step leaves `data_paths` and
`sampling` untouched. -/
theorem _ds_data_handlers_preserves {opt : Option Value} {c c' : DataSetConfig}
    (h : _ds_data_handlers opt c = .ok c') :
    c'.data_paths = c.data_paths ∧ c'.sampling = c.sampling := by
  simp only [_ds_data_handlers] at h
  split at h
  · cases h; exact ⟨rfl, rfl⟩
  · split at h
    · exact Except.noConfusion h
    · obtain ⟨hs, _, hh⟩ := except_map_eq_ok h
      rw [← hh]
      exact ⟨rfl, rfl⟩

/-- A successful `_ds_split` step leaves `data_paths` and `sampling`
untouched. -/
theorem _ds_split_preserves {opt : Option Value} {c c' : DataSetConfig}
    (h : _ds_split opt c = .ok c') :
    c'.data_paths = c.data_paths ∧ c'.sampling = c.sampling := by
  simp only [_ds_split] at h
  split at h
  · cases h; exact ⟨rfl, rfl⟩
  · cases h; exact ⟨rfl, rfl⟩
  · obtain ⟨sp, _, hh⟩ := except_map_eq_ok h
    rw [← hh]
    exact ⟨rfl, rfl⟩
  · exact Except.noConfusion h

/-- Decomposition of a successful run of `_validate_dataset_config` into
its field-processing steps, in source order. -/
theorem _validate_dataset_config_ok_chain {fs : FileSystem}
    {kvs : List (String × Value)} {c : DataSetConfig}
    (h : _validate_dataset_config fs (.vdict kvs) = .ok c) :
    ∃ nm dps c1 c2 c3,
      _ds_name (assocLookup kvs "name") = .ok nm ∧
      _ds_data_paths fs (assocLookup kvs "data_paths") = .ok dps ∧
      _ds_builder (assocLookup kvs "builder") { name := nm, data_paths := dps } = .ok c1 ∧
      _ds_sampling (assocLookup kvs "sampling") c1 = .ok c2 ∧
      _ds_data_handlers (assocLookup kvs "data_handlers") c2 = .ok c3 ∧
      _ds_split (assocLookup kvs "split") c3 = .ok c := by
  simp only [_validate_dataset_config] at h
  obtain ⟨nm, h1, h⟩ := except_bind_eq_ok h
  obtain ⟨dps, h2, h⟩ := except_bind_eq_ok h
  obtain ⟨c1, h3, h⟩ := except_bind_eq_ok h
  obtain ⟨c2, h4, h⟩ := except_bind_eq_ok h
  obtain ⟨c3, h5, h⟩ := except_bind_eq_ok h
  exact ⟨nm, dps, c1, c2, c3, h1, h2, h3, h4, h5, h⟩

/-- Evaluation of the path loop on a list of strings: one output per
input, in order, rewriting exactly the relative paths whose absolute form
exists. -/
theorem _validate_data_paths_map (fs : FileSystem) (paths : List String) :
    _validate_data_paths fs (paths.map Value.vstr)
      = .ok (paths.map (fun p =>
          if !os_path_isabs p && fs.pathExists (fs.abspath p) then fs.abspath p else p)) := by
  induction paths with
  | nil => rfl
  | cons p rest ih =>
    simp only [List.map, _validate_data_paths, ih, Except.map]

/-- The path loop fails with the string-type assertion whenever some
element of the list is not a string. -/
theorem _validate_data_paths_err (fs : FileSystem) :
    ∀ (l : List Value), (∃ x ∈ l, ∀ s, x ≠ .vstr s) →
      _validate_data_paths fs l = .error (.assertError "path should be of the type string") := by
  intro l
  induction l with
  | nil =>
    rintro ⟨x, hx, _⟩
    exact absurd hx (List.not_mem_nil x)
  | cons y rest ih =>
    rintro ⟨x, hx, hxs⟩
    cases y with
    | vstr s =>
      have hxr : x ∈ rest := by
        rcases List.mem_cons.mp hx with h1 | h2
        · exact absurd h1 (hxs s)
        · exact h2
      simp only [_validate_data_paths, ih ⟨x, hxr, hxs⟩, Except.map]
    | vnull => rfl
    | vbool b => rfl
    | vint n => rfl
    | vfloat q => rfl
    | vlist l2 => rfl
    | vdict d => rfl

/-- Claim C5: for a dataset entry whose `data_paths` is a list of strings,
a successful validation stores one path per input, in order; the element
`p` is rewritten to `abspath p` exactly when `p` is not absolute and its
absolute form exists on the filesystem, and is stored unchanged otherwise
(the rewriting never fails validation). -/
theorem data_paths_normalization (fs : FileSystem) (kwargs : Value)
    (paths : List String)
    (hdp : kwargs.lookup "data_paths" = some (.vlist (paths.map Value.vstr)))
    (c : DataSetConfig) (hok : _validate_dataset_config fs kwargs = .ok c) :
    c.data_paths = paths.map (fun p =>
      if !os_path_isabs p && fs.pathExists (fs.abspath p) then fs.abspath p else p) := by
  cases kwargs with
  | vdict kvs =>
    simp only [Value.lookup] at hdp
    obtain ⟨nm, dps, c1, c2, c3, g1, g2, g3, g4, g5, g6⟩ :=
      _validate_dataset_config_ok_chain hok
    rw [hdp] at g2
    simp only [_ds_data_paths, _validate_data_paths_map] at g2
    cases g2
    have p3 := (_ds_builder_preserves g3).1
    have p4 := _ds_sampling_preserves_paths g4
    have p5 := (_ds_data_handlers_preserves g5).1
    have p6 := (_ds_split_preserves g6).1
    rw [p6, p5, p4, p3]
  | vnull => exact Option.noConfusion hdp
  | vbool b => exact Option.noConfusion hdp
  | vint n => exact Option.noConfusion hdp
  | vfloat q => exact Option.noConfusion hdp
  | vstr s => exact Option.noConfusion hdp
  | vlist l => exact Option.noConfusion hdp

/-- Witness for claim C5: under `fsDemo` (working directory `/cwd`, only
`/cwd/a` exists), the relative existing path `a` is rewritten, the
absolute path `/b` and the relative non-existing path `c` are stored
unchanged. -/
theorem data_paths_normalization_witness :
    ({ name := "", data_paths := ["/cwd/a", "/b", "c"] } : DataSetConfig).data_paths
      = ["a", "/b", "c"].map (fun p =>
          if !os_path_isabs p && fsDemo.pathExists (fsDemo.abspath p)
          then fsDemo.abspath p else p) :=
  data_paths_normalization fsDemo
    (.vdict [("data_paths", .vlist [.vstr "a", .vstr "/b", .vstr "c"])])
    ["a", "/b", "c"] rfl
    { name := "", data_paths := ["/cwd/a", "/b", "c"] } rfl

/-- Claim C6: for a dataset entry whose `sampling` is present and not
`None`, a successful validation forces the value to be numeric
(`isinstance(ratio, (float, int))`, which includes integers 0 and 1) and
within `[0.0, 1.0]`, and stores it coerced to float; by contraposition a
non-numeric or out-of-range value (such as -0.1 or 1.5) always fails
validation. -/
theorem sampling_ratio_validation (fs : FileSystem) (kwargs : Value) (v : Value)
    (hs : kwargs.lookup "sampling" = some v) (hnn : v ≠ .vnull)
    (c : DataSetConfig) (hok : _validate_dataset_config fs kwargs = .ok c) :
    v.isNumeric = true ∧ 0 ≤ v.toRat ∧ v.toRat ≤ 1 ∧ c.sampling = some v.toRat := by
  cases kwargs with
  | vdict kvs =>
    simp only [Value.lookup] at hs
    obtain ⟨nm, dps, c1, c2, c3, g1, g2, g3, g4, g5, g6⟩ :=
      _validate_dataset_config_ok_chain hok
    rw [hs] at g4
    obtain ⟨hnum, hlo, hhi, hset⟩ := _ds_sampling_spec hnn g4
    have p5 := (_ds_data_handlers_preserves g5).2
    have p6 := (_ds_split_preserves g6).2
    exact ⟨hnum, hlo, hhi, by rw [p6, p5, hset]⟩
  | vnull => exact Option.noConfusion hs
  | vbool b => exact Option.noConfusion hs
  | vint n => exact Option.noConfusion hs
  | vfloat q => exact Option.noConfusion hs
  | vstr s2 => exact Option.noConfusion hs
  | vlist l => exact Option.noConfusion hs

/-- Witness for claim C6: the integer input 1 is accepted and stored as
the float 1.0. -/
theorem sampling_ratio_validation_witness :
    (Value.vint 1).isNumeric = true ∧ 0 ≤ (Value.vint 1).toRat
      ∧ (Value.vint 1).toRat ≤ 1
      ∧ ({ name := "", data_paths := [], sampling := some 1 } : DataSetConfig).sampling
          = some (Value.vint 1).toRat :=
  sampling_ratio_validation fsId
    (.vdict [("data_paths", .vlist []), ("sampling", .vint 1)])
    (.vint 1) rfl (by simp)
    { name := "", data_paths := [], sampling := some 1 } rfl

/-- Claim C8: for a dataset entry (whose `name` field, the only check that
precedes `data_paths` in source order, is well-formed), validation fails
with the missing-field `ValueError` when `data_paths` is absent, with the
wrong-type assertion when it is present but not a list, and with the
string-type assertion when some element is not a string; in all three
cases no `DataSetConfig` is returned. -/
theorem data_paths_required_and_typed (fs : FileSystem)
    (kvs : List (String × Value))
    (hname : ∀ v, assocLookup kvs "name" = some v → ∃ s, v = .vstr s) :
    (assocLookup kvs "data_paths" = none →
      _validate_dataset_config fs (.vdict kvs)
        = .error (.valueError "data_paths should be specified for each dataset"))
    ∧ (∀ v, assocLookup kvs "data_paths" = some v → (∀ l, v ≠ .vlist l) →
      _validate_dataset_config fs (.vdict kvs)
        = .error (.assertError "data_paths should be an array of files"))
    ∧ (∀ l, assocLookup kvs "data_paths" = some (.vlist l) →
        (∃ x ∈ l, ∀ s, x ≠ .vstr s) →
      _validate_dataset_config fs (.vdict kvs)
        = .error (.assertError "path should be of the type string")) := by
  have hnm : ∃ nm, _ds_name (assocLookup kvs "name") = .ok nm := by
    cases hn : assocLookup kvs "name" with
    | none => exact ⟨"", rfl⟩
    | some v =>
      obtain ⟨s, hv⟩ := hname v hn
      subst hv
      exact ⟨s, rfl⟩
  obtain ⟨nm, hnm⟩ := hnm
  refine ⟨?_, ?_, ?_⟩
  · intro hdp
    simp only [_validate_dataset_config, hnm, hdp, _ds_data_paths, Except.bind]
  · intro v hdp hnl
    simp only [_validate_dataset_config, hnm, hdp, Except.bind]
    cases v with
    | vlist l => exact absurd rfl (hnl l)
    | vnull => rfl
    | vbool b => rfl
    | vint n => rfl
    | vfloat q => rfl
    | vstr s => rfl
    | vdict d => rfl
  · intro l hdp hbad
    simp only [_validate_dataset_config, hnm, hdp, Except.bind, _ds_data_paths,
      _validate_data_paths_err fs l hbad]

/-- Witness for claim C8: a concrete entry without `data_paths` fails with
the missing-field error. -/
theorem data_paths_required_and_typed_witness :
    _validate_dataset_config fsId (.vdict [("name", .vstr "d")])
      = .error (.valueError "data_paths should be specified for each dataset") :=
  (data_paths_required_and_typed fsId [("name", .vstr "d")]
      (fun v hv => ⟨"d", by cases hv; rfl⟩)).1 rfl

set_option maxRecDepth 100000 in
/-- Claim C9 (modelled from the spec, the handler implementation file not
being in the source tree): `skip_samples_with_large_columns` on a record
whose column holds a sequence keeps the record exactly when the element
count is at most `max_allowed_length` (the boundary length equal to the
maximum is kept); consequently, over the test scenario of records with
`input` lengths 1..100 and `max_allowed_length` 60, exactly 60 records
are kept. -/
theorem skip_samples_boundary (record : List (String × Value))
    (col : String) (maxLen : Int) (xs : List Value)
    (h : assocLookup record col = some (.vlist xs)) :
    skip_samples_with_large_columns record (some col) (some maxLen)
        = .ok (decide ((xs.length : Int) ≤ maxLen))
    ∧ ((List.range 100).filter (fun i =>
        match skip_samples_with_large_columns
            [("input", .vlist ((List.range (i + 1)).map (fun n => Value.vint n)))]
            (some "input") (some 60) with
        | .ok b => b
        | .error _ => false)).length = 60 := by
  constructor
  · simp only [skip_samples_with_large_columns, h]
  · decide

/-- Witness for claim C9: a record whose column has exactly the maximum
allowed length is kept. -/
theorem skip_samples_boundary_witness :
    skip_samples_with_large_columns [("input", .vlist [.vint 1, .vint 2])]
        (some "input") (some 2)
      = .ok (decide (((([Value.vint 1, Value.vint 2] : List Value)).length : Int) ≤ 2)) :=
  (skip_samples_boundary [("input", .vlist [.vint 1, .vint 2])] "input" 2
      [.vint 1, .vint 2] rfl).1
